import Mathlib

/-!
Shallow embedding of the sandbox container manager
(src/pygpt_net/core/docker/__init__.py) and of the remote-tool selector
(src/pygpt_net/provider/gpt/agents/remote_tools.py) of the py-gpt
repository, together with theorems settling the frozen claims about them.

The Docker SDK is an external collaborator.  Its calls are modelled by a
runtime state (which images and containers exist) plus an environment of
injected failures: each SDK primitive either raises the injected error or
performs its documented effect.  The runtime itself reports not-found
errors exactly when the requested object is absent (docker-py raises
NotFound precisely on a 404 response); any other failure of a primitive
is an injected DockerException/APIError, carried as a message string.
Every modelled method returns its Python result as an Except value
(error = the exception propagating to the caller), the updated runtime
state, and a trace of the externally visible runtime events it caused.
-/

set_option maxRecDepth 8192

namespace PyGpt

/-- Python exception classes relevant to the source file.  In docker-py,
ImageNotFound derives from NotFound, NotFound from APIError, APIError from
DockerException; UnicodeDecodeError is unrelated to DockerException. -/
inductive PyError where
  | imageNotFound (msg : String)
  | notFound (msg : String)
  | dockerError (msg : String)
  | unicodeDecodeError (msg : String)
deriving DecidableEq, Repr

/-- Matches except docker.errors.NotFound (ImageNotFound is a subclass). -/
def PyError.isNotFound : PyError → Bool
  | .imageNotFound _ => true
  | .notFound _ => true
  | _ => false

/-- Matches except DockerException (all docker-py errors derive from it). -/
def PyError.isDockerException : PyError → Bool
  | .unicodeDecodeError _ => false
  | _ => true

/-- Python str(e) of the exception. -/
def PyError.str : PyError → String
  | .imageNotFound m => m
  | .notFound m => m
  | .dockerError m => m
  | .unicodeDecodeError m => m

/-- The configuration values read through the plugin: Dockerfile text,
image name, container name (plugin option values) and the host data
directory (window.core.config.get_user_dir of data). -/
structure SandboxConfig where
  dockerfile : String
  image_name : String
  container_name : String
  host_data_dir : String
deriving DecidableEq, Repr

/-- State of the container runtime: the image tags that exist and the
containers that exist, as an association list of name and status.  The
list may in principle hold several entries of one name; the uniqueness
invariant about the code is proved, not assumed. -/
structure RuntimeState where
  images : List String
  containers : List (String × String)
deriving DecidableEq, Repr

/-- Failure environment: for each SDK primitive used by the source file,
an optional injected error message (the primitive raises a
DockerException/APIError with that message instead of acting), plus the
raw bytes that exec_run captures as combined stdout and stderr.  A
fromEnv injection models an unreachable runtime: docker.from_env()
auto-negotiates the API version against the daemon and raises
DockerException when it is unreachable. -/
structure DockerEnv where
  fromEnv : Option String
  ping : Option String
  imagesGet : Option String
  imagesBuild : Option String
  containersGet : Option String
  reload : Option String
  stopC : Option String
  removeC : Option String
  createC : Option String
  startC : Option String
  execRun : Option String
  execOutput : List Nat
deriving DecidableEq, Repr

/-- Externally visible runtime events caused by the component. -/
inductive Event where
  | buildImage (tag : String)
  | stopContainer (name : String)
  | removeContainer (name : String)
  | createContainer (name : String) (image : String) (bindHost : String)
      (bindDest : String) (mode : String) (tty : Bool) (stdinOpen : Bool)
      (command : String)
  | startContainer (name : String)
  | execRun (name : String) (cmd : String)
deriving DecidableEq, Repr

def Event.isBuild : Event → Bool
  | .buildImage _ => true
  | _ => false

def Event.isCreate : Event → Bool
  | .createContainer _ _ _ _ _ _ _ _ => true
  | _ => false

def Event.isExec : Event → Bool
  | .execRun _ _ => true
  | _ => false

/-- Containers of the given name, removed (container.remove). -/
def removeName (l : List (String × String)) (name : String) :
    List (String × String) :=
  l.filter (fun p => !decide (p.1 = name))

/-- Status of every container of the given name, replaced. -/
def setStatus (l : List (String × String)) (name status : String) :
    List (String × String) :=
  l.map (fun p => if p.1 = name then (p.1, status) else p)

/-- Number of containers of the given name in the runtime. -/
def countName (l : List (String × String)) (name : String) : Nat :=
  (l.filter (fun p => p.1 = name)).length

/-- Result of a container runtime lookup by name. -/
def lookupC (l : List (String × String)) (name : String) : Option String :=
  List.lookup name l

/-- Model of get_docker_client, that is docker.from_env(): raises
DockerException when the injected environment makes the daemon
unreachable, otherwise hands back the client. -/
def get_docker_client (env : DockerEnv) : Except PyError Unit :=
  match env.fromEnv with
  | some m => .error (.dockerError m)
  | none => .ok ()

/-- Model of Docker.is_image: gets a client, then client.images.get on
the configured image name; only ImageNotFound is caught (returning
false); any other error propagates. -/
def is_image (env : DockerEnv) (cfg : SandboxConfig) (st : RuntimeState) :
    Except PyError Bool :=
  match get_docker_client env with
  | .error e => .error e
  | .ok _ =>
    match env.imagesGet with
    | some m => .error (.dockerError m)
    | none =>
      if cfg.image_name ∈ st.images then .ok true else .ok false

/-- Model of Docker.build_image: gets a client, packages the Dockerfile
into a context and calls client.images.build tagged with the image name.
Build errors propagate to the caller. -/
def build_image (env : DockerEnv) (cfg : SandboxConfig)
    (st : RuntimeState) :
    Except PyError Unit × RuntimeState × List Event :=
  match get_docker_client env with
  | .error e => (.error e, st, [])
  | .ok _ =>
    match env.imagesBuild with
    | some m => (.error (.dockerError m), st, [])
    | none =>
      (.ok (), { st with images :=
          if cfg.image_name ∈ st.images then st.images
          else cfg.image_name :: st.images },
        [.buildImage cfg.image_name])

/-- Model of Docker.stop_container: gets a client (errors propagate),
then inside try: containers.get(name), container.stop(),
container.remove(); only NotFound is caught (logged); any other error
from these calls propagates. -/
def stop_container (env : DockerEnv) (name : String) (st : RuntimeState) :
    Except PyError Unit × RuntimeState × List Event :=
  match get_docker_client env with
  | .error e => (.error e, st, [])
  | .ok _ =>
    match env.containersGet with
    | some m => (.error (.dockerError m), st, [])
    | none =>
      match lookupC st.containers name with
      | none => (.ok (), st, [])
      | some _ =>
        match env.stopC with
        | some m => (.error (.dockerError m), st, [])
        | none =>
          let st1 : RuntimeState :=
            { st with containers := setStatus st.containers name "exited" }
          match env.removeC with
          | some m => (.error (.dockerError m), st1, [.stopContainer name])
          | none =>
            (.ok (),
              { st1 with containers := removeName st1.containers name },
              [.stopContainer name, .removeContainer name])

/-- The fixed creation options used by Docker.create_container: volume
bind of the host data dir onto /data in rw mode, tty, stdin open, and
the idle keep-alive command. -/
def createEvent (cfg : SandboxConfig) (name : String) : Event :=
  .createContainer name cfg.image_name cfg.host_data_dir "/data" "rw"
    true true "tail -f /dev/null"

/-- Model of Docker.create_container.  The client is obtained before the
try block, so a fromEnv failure propagates.  Inside try: containers.get,
reload, and on a non-running status remove, create, start; NotFound from
the lookup selects the handler that creates and starts a new container,
and every other exception raised inside the try block is caught by the
except Exception clause and only logged.  Exceptions raised inside the
NotFound handler itself (create or start on the absent path) are not
covered by the later except clause and propagate. -/
def create_container (env : DockerEnv) (cfg : SandboxConfig)
    (st : RuntimeState) (name : String) :
    Except PyError Unit × RuntimeState × List Event :=
  match get_docker_client env with
  | .error e => (.error e, st, [])
  | .ok _ =>
    match env.containersGet with
    | some _ => (.ok (), st, [])
    | none =>
      match lookupC st.containers name with
      | some status =>
        match env.reload with
        | some _ => (.ok (), st, [])
        | none =>
          if status = "running" then (.ok (), st, [])
          else
            match env.removeC with
            | some _ => (.ok (), st, [])
            | none =>
              let st1 : RuntimeState :=
                { st with containers := removeName st.containers name }
              match env.createC with
              | some _ => (.ok (), st1, [.removeContainer name])
              | none =>
                let st2 : RuntimeState :=
                  { st1 with containers := (name, "created") :: st1.containers }
                match env.startC with
                | some _ =>
                  (.ok (), st2, [.removeContainer name, createEvent cfg name])
                | none =>
                  (.ok (),
                    { st2 with containers :=
                        setStatus st2.containers name "running" },
                    [.removeContainer name, createEvent cfg name,
                      .startContainer name])
      | none =>
        match env.createC with
        | some m => (.error (.dockerError m), st, [])
        | none =>
          let st1 : RuntimeState :=
            { st with containers := (name, "created") :: st.containers }
          match env.startC with
          | some m => (.error (.dockerError m), st1, [createEvent cfg name])
          | none =>
            (.ok (),
              { st1 with containers :=
                  setStatus st1.containers name "running" },
              [createEvent cfg name, .startContainer name])

/-! UTF-8 codec, modelling Python bytes.decode with utf-8 in strict
mode and str.encode with utf-8.  Code points are natural numbers;
byte strings are lists of natural numbers.  The decoder is strict: it
rejects overlong forms, surrogate code points and lead bytes above
0xF4, exactly as CPython does. -/

/-- UTF-8 encoding of one code point. -/
def utf8EncodeChar (c : Nat) : List Nat :=
  if c < 0x80 then [c]
  else if c < 0x800 then [0xC0 + c / 64, 0x80 + c % 64]
  else if c < 0x10000 then
    [0xE0 + c / 4096, 0x80 + c / 64 % 64, 0x80 + c % 64]
  else
    [0xF0 + c / 262144, 0x80 + c / 4096 % 64, 0x80 + c / 64 % 64,
      0x80 + c % 64]

/-- UTF-8 encoding of a sequence of code points. -/
def utf8Encode (cs : List Nat) : List Nat :=
  (cs.map utf8EncodeChar).flatten

/-- Strict UTF-8 decoding of one code point from the head of a byte
string, returning the code point and the remaining bytes. -/
def utf8DecodeChar : List Nat → Option (Nat × List Nat)
  | [] => none
  | b0 :: r =>
    if b0 < 0x80 then some (b0, r)
    else if b0 < 0xC2 then none
    else if b0 < 0xE0 then
      match r with
      | b1 :: r1 =>
        if 0x80 ≤ b1 ∧ b1 < 0xC0 then
          some ((b0 - 0xC0) * 64 + (b1 - 0x80), r1)
        else none
      | _ => none
    else if b0 < 0xF0 then
      match r with
      | b1 :: b2 :: r2 =>
        if (0x80 ≤ b1 ∧ b1 < 0xC0) ∧ (0x80 ≤ b2 ∧ b2 < 0xC0) ∧
            (b0 = 0xE0 → 0xA0 ≤ b1) ∧ (b0 = 0xED → b1 < 0xA0) then
          some ((b0 - 0xE0) * 4096 + (b1 - 0x80) * 64 + (b2 - 0x80), r2)
        else none
      | _ => none
    else if b0 < 0xF5 then
      match r with
      | b1 :: b2 :: b3 :: r3 =>
        if (0x80 ≤ b1 ∧ b1 < 0xC0) ∧ (0x80 ≤ b2 ∧ b2 < 0xC0) ∧
            (0x80 ≤ b3 ∧ b3 < 0xC0) ∧
            (b0 = 0xF0 → 0x90 ≤ b1) ∧ (b0 = 0xF4 → b1 < 0x90) then
          some ((b0 - 0xF0) * 262144 + (b1 - 0x80) * 4096 +
            (b2 - 0x80) * 64 + (b3 - 0x80), r3)
        else none
      | _ => none
    else none

theorem utf8DecodeChar_length {bs : List Nat} {c : Nat} {rest : List Nat}
    (h : utf8DecodeChar bs = some (c, rest)) : rest.length < bs.length := by
  cases bs with
  | nil => simp [utf8DecodeChar] at h
  | cons b0 r =>
    simp only [utf8DecodeChar] at h
    repeat' split at h
    all_goals first
      | exact Option.noConfusion h
      | (injection h with h2
         injection h2 with h3 h4
         subst h4
         simp
         omega)
      | (injection h with h2
         injection h2 with h3 h4
         subst h4
         simp)

/-- Fuel-indexed strict UTF-8 decoding of a byte string.  Each decoded
code point consumes at least one byte, so fuel equal to the length of
the byte string always suffices. -/
def utf8DecodeFuel : Nat → List Nat → Option (List Nat)
  | _, [] => some []
  | 0, _ :: _ => none
  | fuel + 1, b :: bs =>
    match utf8DecodeChar (b :: bs) with
    | none => none
    | some (c, rest) =>
      match utf8DecodeFuel fuel rest with
      | none => none
      | some cs => some (c :: cs)

/-- Strict UTF-8 decoding of a whole byte string: the list of code
points, or none when the bytes are not valid UTF-8. -/
def utf8Decode (bs : List Nat) : Option (List Nat) :=
  utf8DecodeFuel bs.length bs

theorem utf8EncodeChar_decodeChar {bs : List Nat} {c : Nat}
    {rest : List Nat} (h : utf8DecodeChar bs = some (c, rest)) :
    utf8EncodeChar c ++ rest = bs := by
  cases bs with
  | nil => simp [utf8DecodeChar] at h
  | cons b0 r =>
    simp only [utf8DecodeChar] at h
    repeat' split at h
    all_goals (try exact Option.noConfusion h)
    all_goals
      injection h with h2
    all_goals
      injection h2 with h3 h4
    all_goals (subst h3; subst h4)
    all_goals unfold utf8EncodeChar
    all_goals repeat' split
    all_goals
      try simp only [List.cons_append, List.nil_append, List.cons.injEq,
        eq_self_iff_true, and_true]
    all_goals omega

theorem utf8DecodeFuel_encode :
    ∀ (fuel : Nat) (bs cs : List Nat), bs.length ≤ fuel →
      utf8DecodeFuel fuel bs = some cs → utf8Encode cs = bs := by
  intro fuel
  induction fuel with
  | zero =>
    intro bs cs hl h
    cases bs with
    | nil =>
      simp only [utf8DecodeFuel, Option.some.injEq] at h
      subst h
      simp [utf8Encode]
    | cons b r => simp at hl
  | succ n ih =>
    intro bs cs hl h
    cases bs with
    | nil =>
      simp only [utf8DecodeFuel, Option.some.injEq] at h
      subst h
      simp [utf8Encode]
    | cons b r =>
      simp only [utf8DecodeFuel] at h
      split at h
      · exact Option.noConfusion h
      · rename_i c0 rest heq
        split at h
        · exact Option.noConfusion h
        · rename_i cs1 hr
          injection h with h2
          subst h2
          have hlen := utf8DecodeChar_length heq
          have hrec := ih rest cs1 (by simp at hl hlen ⊢; omega) hr
          have hchar := utf8EncodeChar_decodeChar heq
          calc utf8Encode (c0 :: cs1)
              = utf8EncodeChar c0 ++ utf8Encode cs1 := by
                simp [utf8Encode]
            _ = utf8EncodeChar c0 ++ rest := by rw [hrec]
            _ = b :: r := hchar

/-- Strict decoding followed by encoding is the identity: whenever a
byte string decodes as UTF-8, re-encoding the decoded code points gives
back exactly the original bytes. -/
theorem utf8Encode_utf8Decode {bs cs : List Nat}
    (h : utf8Decode bs = some cs) : utf8Encode cs = bs :=
  utf8DecodeFuel_encode bs.length bs cs le_rfl h

/-- Python encoding of a text to UTF-8 bytes (str.encode). -/
def pyStrEncode (s : String) : List Nat :=
  utf8Encode (s.data.map Char.toNat)

/-- UTF-8 bytes of str(e) for an exception, as execute computes on the
error path. -/
def PyError.strBytes (e : PyError) : List Nat :=
  pyStrEncode e.str

/-- Message used for a NotFound raised by containers.get in execute. -/
def containerNotFoundMsg : String := "404 Client Error: Not Found"

/-- Message used for a UnicodeDecodeError raised while decoding the
captured output. -/
def decodeErrorMsg : String :=
  "utf-8 codec cannot decode captured output"

/-- Model of Docker.execute.  The client acquisition, the image check
(is_image) and the conditional build run before the try block, so their
failures propagate.  Inside try: create_container, containers.get,
exec_run, decode as UTF-8 and re-encode; except Exception converts any
of these failures into the bytes of str(e). -/
def execute (env : DockerEnv) (cfg : SandboxConfig) (st : RuntimeState)
    (cmd : String) :
    Except PyError (List Nat) × RuntimeState × List Event :=
  match get_docker_client env with
  | .error e => (.error e, st, [])
  | .ok _ =>
    let name := cfg.container_name
    match is_image env cfg st with
    | .error e => (.error e, st, [])
    | .ok b =>
      match (if b then ((.ok () : Except PyError Unit), st, ([] : List Event))
             else build_image env cfg st) with
      | (.error e, st1, tr1) => (.error e, st1, tr1)
      | (.ok _, st1, tr1) =>
        match create_container env cfg st1 name with
        | (.error e, st2, tr2) => (.ok e.strBytes, st2, tr1 ++ tr2)
        | (.ok _, st2, tr2) =>
          match env.containersGet with
          | some m =>
            (.ok (PyError.dockerError m).strBytes, st2, tr1 ++ tr2)
          | none =>
            match lookupC st2.containers name with
            | none =>
              (.ok (PyError.notFound containerNotFoundMsg).strBytes, st2,
                tr1 ++ tr2)
            | some _ =>
              match env.execRun with
              | some m =>
                (.ok (PyError.dockerError m).strBytes, st2, tr1 ++ tr2)
              | none =>
                match utf8Decode env.execOutput with
                | none =>
                  (.ok (PyError.unicodeDecodeError decodeErrorMsg).strBytes,
                    st2, tr1 ++ tr2 ++ [.execRun name cmd])
                | some cs =>
                  (.ok (utf8Encode cs), st2,
                    tr1 ++ tr2 ++ [.execRun name cmd])

/-- Model of Docker.is_docker_installed.  The constructor sets
self.client to None and no method of the file ever reassigns it, so the
if client is None test always succeeds and the method always creates a
client and pings it; DockerException (which covers every docker-py
error, from_env and ping included) is caught and yields false. -/
def is_docker_installed (env : DockerEnv) : Except PyError Bool :=
  let attempt : Except PyError Bool :=
    match get_docker_client env with
    | .error e => .error e
    | .ok _ =>
      match env.ping with
      | some m => .error (.dockerError m)
      | none => .ok true
  match attempt with
  | .ok b => .ok b
  | .error e => if e.isDockerException then .ok false else .error e

/-! Embedding of get_remote_tools
(src/pygpt_net/provider/gpt/agents/remote_tools.py).  ModelItem,
PresetItem, the OPENAI_REMOTE_TOOL_DISABLE constants and the window
configuration live outside the provided sources; the claims quantify
over them, so they are abstracted: is_gpt is an opaque boolean attribute
of the model item, the disable constants are abstract string lists, the
configuration keys the function reads are fields of an environment. -/

/-- The fields of ModelItem that get_remote_tools reads: the id string
and the result of the is_gpt test (opaque, defined outside src). -/
structure ModelItem where
  id : String
  is_gpt : Bool
deriving DecidableEq, Repr

/-- The field of PresetItem that get_remote_tools reads. -/
structure PresetItem where
  remote_tools : String
deriving DecidableEq, Repr

/-- The OPENAI_REMOTE_TOOL_DISABLE constants from pygpt_net.core.types
(outside the provided sources), abstracted as string lists. -/
structure DisableLists where
  computer_use : List String
  web_search : List String
  code_interpreter : List String
  image : List String
  file_search : List String
  mcp : List String
deriving DecidableEq, Repr

/-- The window.core.config values get_remote_tools reads, plus whether
json.loads succeeds on the mcp args. -/
structure ToolsEnv where
  web_search : Bool
  image : Bool
  code_interpreter : Bool
  mcp : Bool
  file_search : Bool
  file_search_args : String
  mcp_args : String
  mcpJsonOk : Bool
deriving DecidableEq, Repr

/-- The enabled dictionary built by get_remote_tools. -/
structure EnabledFlags where
  web_search : Bool
  image : Bool
  code_interpreter : Bool
  mcp : Bool
  file_search : Bool
  computer_use : Bool
deriving DecidableEq, Repr

/-- A Python value that is either a string or a list of strings, as the
vector_store_ids variable can be either. -/
inductive StrOrList where
  | str (s : String)
  | list (l : List String)
deriving DecidableEq, Repr

/-- The remote tool objects the selector can return, with the literal
configuration the source passes to each constructor. -/
inductive RemoteTool where
  | computer
  | webSearch
  | codeInterpreter (toolType containerType : String)
  | imageGeneration (toolType quality : String)
  | fileSearch (maxNumResults : Nat) (vectorStoreIds : StrOrList)
      (includeSearchResults : Bool)
  | hostedMCP (toolConfig : String)
deriving DecidableEq, Repr

/-- Python str.startswith, evaluated on the character sequences of the
two strings. -/
def pyStartsWith (s pre : String) : Bool :=
  List.isPrefixOf pre.data s.data

/-- Comma-split, strip each piece, drop empties: the list comprehension
applied to preset.remote_tools and to the file_search args. -/
def parseToolsList (s : String) : List String :=
  ((s.splitOn ",").map String.trim).filter (fun t => t ≠ "")

/-- One step of the loop that sets enabled item to True when the item is
one of the six keys of the dictionary. -/
def setFlag (e : EnabledFlags) (item : String) : EnabledFlags :=
  if item = "web_search" then { e with web_search := true }
  else if item = "image" then { e with image := true }
  else if item = "code_interpreter" then { e with code_interpreter := true }
  else if item = "mcp" then { e with mcp := true }
  else if item = "file_search" then { e with file_search := true }
  else if item = "computer_use" then { e with computer_use := true }
  else e

/-- The enabled dictionary after the configuration phase of
get_remote_tools: all False, then from the global config (with
computer_use from the model id) when not an expert call, else from the
preset remote_tools list. -/
def computeEnabled (env : ToolsEnv) (model : ModelItem)
    (preset : Option PresetItem) (is_expert_call : Bool) : EnabledFlags :=
  let base : EnabledFlags :=
    { web_search := false, image := false, code_interpreter := false,
      mcp := false, file_search := false, computer_use := false }
  if is_expert_call = false then
    { web_search := env.web_search, image := env.image,
      code_interpreter := env.code_interpreter, mcp := env.mcp,
      file_search := env.file_search,
      computer_use := pyStartsWith model.id "computer-use" }
  else
    match preset with
    | some p =>
      if p.remote_tools ≠ "" then
        (parseToolsList p.remote_tools).foldl setFlag base
      else base
    | none => base

/-- The vector_store_ids value passed to FileSearchTool: the raw config
string when it is empty (falsy), else the parsed list. -/
def vectorStoreIdsOf (env : ToolsEnv) : StrOrList :=
  if env.file_search_args = "" then .str env.file_search_args
  else .list (parseToolsList env.file_search_args)

/-- Model of get_remote_tools.  Returns an error when json.loads raises
on the mcp args; every other path returns the accumulated tool list. -/
def get_remote_tools (env : ToolsEnv) (disable : DisableLists)
    (model : ModelItem) (preset : Option PresetItem)
    (is_expert_call : Bool) : Except String (List RemoteTool) :=
  if model.is_gpt = false then .ok []
  else
    let enabled := computeEnabled env model preset is_expert_call
    if enabled.computer_use then
      if ¬ model.id ∈ disable.computer_use then .ok [.computer]
      else .ok []
    else
      let t1 : List RemoteTool :=
        if ¬ model.id ∈ disable.web_search ∧ enabled.web_search then
          [.webSearch]
        else []
      let t2 : List RemoteTool :=
        if ¬ model.id ∈ disable.code_interpreter ∧ enabled.code_interpreter
        then t1 ++ [.codeInterpreter "code_interpreter" "auto"]
        else t1
      let t3 : List RemoteTool :=
        if ¬ model.id ∈ disable.image ∧ enabled.image then
          t2 ++ [.imageGeneration "image_generation" "low"]
        else t2
      let t4 : List RemoteTool :=
        if ¬ model.id ∈ disable.file_search ∧ enabled.file_search then
          t3 ++ [.fileSearch 3 (vectorStoreIdsOf env) true]
        else t3
      if ¬ model.id ∈ disable.mcp ∧ enabled.mcp ∧ env.mcp_args ≠ "" then
        if env.mcpJsonOk then .ok (t4 ++ [.hostedMCP env.mcp_args])
        else .error "json.loads raised on remote_tools.mcp.args"
      else .ok t4

/-! Helper lemmas about the container list operations. -/

theorem setStatus_key (p : String × String) (n s : String) :
    ((if p.1 = n then (p.1, s) else p) : String × String).1 = p.1 := by
  split <;> rfl

theorem countName_setStatus (l : List (String × String)) (n s m : String) :
    countName (setStatus l n s) m = countName l m := by
  induction l with
  | nil => rfl
  | cons p t ih =>
    have ih2 := ih
    simp only [countName, setStatus, List.map_cons, List.filter_cons,
      setStatus_key] at ih2 ⊢
    by_cases hm : p.1 = m
    · simp [hm, ih2]
    · simp [hm, ih2]

theorem countName_removeName (l : List (String × String)) (n : String) :
    countName (removeName l n) n = 0 := by
  induction l with
  | nil => rfl
  | cons p t ih =>
    have ih2 := ih
    simp only [countName, removeName, List.filter_cons] at ih2 ⊢
    by_cases hp : p.1 = n
    · simp [hp, ih2]
    · simp [hp, ih2]

theorem countName_cons_self (l : List (String × String)) (n s : String) :
    countName ((n, s) :: l) n = countName l n + 1 := by
  simp [countName, List.filter_cons]

theorem countName_of_lookup_none (l : List (String × String)) (n : String)
    (h : lookupC l n = none) : countName l n = 0 := by
  induction l with
  | nil => rfl
  | cons p t ih =>
    obtain ⟨a, b⟩ := p
    simp only [lookupC, List.lookup] at h
    by_cases hna : n = a
    · subst hna
      simp at h
    · have hb : (n == a) = false := by
        simpa using hna
      rw [hb] at h
      have h0 : countName t n = 0 := ih h
      have hne : ¬ (a = n) := fun hc => hna hc.symm
      simpa [countName, List.filter_cons, hne] using h0

theorem setStatus_of_lookup_none (l : List (String × String)) (n s : String)
    (h : lookupC l n = none) : setStatus l n s = l := by
  induction l with
  | nil => rfl
  | cons p t ih =>
    obtain ⟨a, b⟩ := p
    simp only [lookupC, List.lookup] at h
    by_cases hna : n = a
    · subst hna
      simp at h
    · have hb : (n == a) = false := by
        simpa using hna
      rw [hb] at h
      have ht := ih h
      have hne : ¬ (a = n) := fun hc => hna hc.symm
      simp [setStatus, hne] at ht ⊢
      exact ht

theorem lookupC_removeName (l : List (String × String)) (n : String) :
    lookupC (removeName l n) n = none := by
  induction l with
  | nil => rfl
  | cons p t ih =>
    by_cases hp : p.1 = n
    · simpa [removeName, List.filter_cons, hp] using ih
    · have hb : (n == p.1) = false := by
        simpa using fun hc : n = p.1 => hp hc.symm
      have hpb : (!decide (p.1 = n)) = true := by simpa using hp
      have ih2 := ih
      simp only [removeName, List.filter_cons] at ih2 ⊢
      rw [hpb, if_pos rfl]
      simp only [lookupC, List.lookup, hb]
      exact ih2

theorem setStatus_removeName (l : List (String × String)) (n s : String) :
    setStatus (removeName l n) n s = removeName l n :=
  setStatus_of_lookup_none (removeName l n) n s (lookupC_removeName l n)

theorem setStatus_cons_self (l : List (String × String)) (n s0 s : String) :
    setStatus ((n, s0) :: l) n s = (n, s) :: setStatus l n s := by
  simp [setStatus]

theorem lookupC_cons_self (l : List (String × String)) (n s : String) :
    lookupC ((n, s) :: l) n = some s := by
  simp [lookupC, List.lookup]

/-! Clean equations for create_container on a failure-free environment. -/

/-- All injected failures absent: every SDK primitive the component
calls performs its documented effect. -/
def noFail (env : DockerEnv) : Prop :=
  env.fromEnv = none ∧ env.ping = none ∧ env.imagesGet = none ∧
  env.imagesBuild = none ∧ env.containersGet = none ∧ env.reload = none ∧
  env.stopC = none ∧ env.removeC = none ∧ env.createC = none ∧
  env.startC = none ∧ env.execRun = none

instance noFail.decidable (env : DockerEnv) : Decidable (noFail env) := by
  unfold noFail
  infer_instance

theorem create_container_running {env : DockerEnv} {cfg : SandboxConfig}
    {st : RuntimeState} {name : String}
    (hf : env.fromEnv = none) (hg : env.containersGet = none)
    (hr : env.reload = none)
    (hlk : lookupC st.containers name = some "running") :
    create_container env cfg st name = (.ok (), st, []) := by
  simp [create_container, get_docker_client, hf, hg, hr, hlk]

theorem create_container_stopped {env : DockerEnv} {cfg : SandboxConfig}
    {st : RuntimeState} {name status : String}
    (hf : env.fromEnv = none) (hg : env.containersGet = none)
    (hr : env.reload = none) (hrm : env.removeC = none)
    (hc : env.createC = none) (hs : env.startC = none)
    (hlk : lookupC st.containers name = some status)
    (hst : status ≠ "running") :
    create_container env cfg st name =
      (.ok (),
        { st with containers := (name, "running") :: removeName st.containers name },
        [.removeContainer name, createEvent cfg name, .startContainer name]) := by
  simp [create_container, get_docker_client, hf, hg, hr, hrm, hc, hs, hlk,
    hst, setStatus_cons_self, setStatus_removeName]

theorem create_container_absent {env : DockerEnv} {cfg : SandboxConfig}
    {st : RuntimeState} {name : String}
    (hf : env.fromEnv = none) (hg : env.containersGet = none)
    (hc : env.createC = none) (hs : env.startC = none)
    (hlk : lookupC st.containers name = none) :
    create_container env cfg st name =
      (.ok (),
        { st with containers := (name, "running") :: st.containers },
        [createEvent cfg name, .startContainer name]) := by
  simp [create_container, get_docker_client, hf, hg, hc, hs, hlk,
    setStatus_cons_self, setStatus_of_lookup_none st.containers name "running" hlk]

theorem removeName_setStatus (l : List (String × String)) (n s : String) :
    removeName (setStatus l n s) n = removeName l n := by
  induction l with
  | nil => rfl
  | cons p t ih =>
    have ih2 := ih
    simp only [setStatus, List.map_cons, removeName, List.filter_cons,
      setStatus_key] at ih2 ⊢
    by_cases hp : p.1 = n
    · simp [hp, ih2]
    · simp [hp, ih2]

/-! The value execute produces on a failure-free run: the captured
bytes decoded as UTF-8 and re-encoded, or the stringified
UnicodeDecodeError when the bytes are not valid UTF-8. -/

def execHappy (env : DockerEnv) : Except PyError (List Nat) :=
  match utf8Decode env.execOutput with
  | none => .ok (PyError.unicodeDecodeError decodeErrorMsg).strBytes
  | some cs => .ok (utf8Encode cs)

/-- Runtime state after the image phase of execute. -/
def withImage (cfg : SandboxConfig) (st : RuntimeState) : RuntimeState :=
  { st with images :=
      if cfg.image_name ∈ st.images then st.images
      else cfg.image_name :: st.images }

/-- Trace of the image phase of execute. -/
def imageTrace (cfg : SandboxConfig) (st : RuntimeState) : List Event :=
  if cfg.image_name ∈ st.images then [] else [.buildImage cfg.image_name]

theorem execute_noFail_running {env : DockerEnv} {cfg : SandboxConfig}
    {st : RuntimeState} {cmd : String} (henv : noFail env)
    (hrun : lookupC st.containers cfg.container_name = some "running") :
    execute env cfg st cmd =
      (execHappy env, withImage cfg st,
        imageTrace cfg st ++ [.execRun cfg.container_name cmd]) := by
  obtain ⟨hf, hp, hig, hib, hcg, hr, hsc, hrm, hcc, hst, her⟩ := henv
  by_cases hm : cfg.image_name ∈ st.images <;>
    cases hd : utf8Decode env.execOutput <;>
      simp [execute, get_docker_client, is_image, build_image, hf, hig, hib,
        hm, create_container_running hf hcg hr,
        hrun, hcg, her, hd, execHappy, withImage, imageTrace]

theorem execute_noFail_stopped {env : DockerEnv} {cfg : SandboxConfig}
    {st : RuntimeState} {cmd status : String} (henv : noFail env)
    (hlk : lookupC st.containers cfg.container_name = some status)
    (hst : status ≠ "running") :
    execute env cfg st cmd =
      (execHappy env,
        (⟨(withImage cfg st).images,
          (cfg.container_name, "running") ::
            removeName st.containers cfg.container_name⟩ : RuntimeState),
        imageTrace cfg st ++
          [.removeContainer cfg.container_name,
            createEvent cfg cfg.container_name,
            .startContainer cfg.container_name,
            .execRun cfg.container_name cmd]) := by
  obtain ⟨hf, hp, hig, hib, hcg, hr, hsc, hrm, hcc, hstc, her⟩ := henv
  by_cases hm : cfg.image_name ∈ st.images <;>
    cases hd : utf8Decode env.execOutput <;>
      simp [execute, get_docker_client, is_image, build_image, hf, hig, hib,
        hm, create_container_stopped hf hcg hr hrm hcc hstc, hlk, hst,
        hcg, her, hd, execHappy, withImage, imageTrace, lookupC_cons_self]

theorem execute_noFail_absent {env : DockerEnv} {cfg : SandboxConfig}
    {st : RuntimeState} {cmd : String} (henv : noFail env)
    (hlk : lookupC st.containers cfg.container_name = none) :
    execute env cfg st cmd =
      (execHappy env,
        (⟨(withImage cfg st).images,
          (cfg.container_name, "running") :: st.containers⟩ : RuntimeState),
        imageTrace cfg st ++
          [createEvent cfg cfg.container_name,
            .startContainer cfg.container_name,
            .execRun cfg.container_name cmd]) := by
  obtain ⟨hf, hp, hig, hib, hcg, hr, hsc, hrm, hcc, hstc, her⟩ := henv
  by_cases hm : cfg.image_name ∈ st.images <;>
    cases hd : utf8Decode env.execOutput <;>
      simp [execute, get_docker_client, is_image, build_image, hf, hig, hib,
        hm, create_container_absent hf hcg hcc hstc, hlk,
        hcg, her, hd, execHappy, withImage, imageTrace, lookupC_cons_self]

/-! Concrete fixtures used by the witness theorems. -/

def cfg0 : SandboxConfig :=
  { dockerfile := "FROM python:3.11", image_name := "pygpt_image",
    container_name := "pygpt_container",
    host_data_dir := "/home/user/.config/pygpt-net/data" }

def envOk : DockerEnv :=
  { fromEnv := none, ping := none, imagesGet := none, imagesBuild := none,
    containersGet := none, reload := none, stopC := none, removeC := none,
    createC := none, startC := none, execRun := none,
    execOutput := [104, 105, 10] }

def stEmpty : RuntimeState := { images := [], containers := [] }

def stRunning : RuntimeState :=
  { images := ["pygpt_image"],
    containers := [("pygpt_container", "running")] }

def stStopped : RuntimeState :=
  { images := ["pygpt_image"],
    containers := [("pygpt_container", "exited")] }

/-- C8: is_docker_installed always pings the runtime (self.client is
None from the constructor and never reassigned in the file), returns
false exactly when the runtime is unreachable (client creation or ping
fails, both DockerException), returns true otherwise, and never lets an
exception escape. -/
theorem C8_is_docker_installed (env : DockerEnv) :
    is_docker_installed env = .ok (env.fromEnv.isNone && env.ping.isNone) := by
  cases hf : env.fromEnv <;> cases hp : env.ping <;>
    simp [is_docker_installed, get_docker_client, hf, hp,
      PyError.isDockerException]

/-- C5: with a reachable runtime, stop_container on an existing
container stops it and removes it, and on an absent container the
NotFound from the lookup is caught, so the call raises nothing and
leaves the runtime untouched: teardown is idempotent. -/
theorem C5_stop_container (env : DockerEnv) (name : String)
    (st : RuntimeState) (hf : env.fromEnv = none)
    (hg : env.containersGet = none) :
    (lookupC st.containers name = none →
      stop_container env name st = (.ok (), st, [])) ∧
    (∀ s, lookupC st.containers name = some s →
      env.stopC = none → env.removeC = none →
      stop_container env name st =
        (.ok (), { st with containers := removeName st.containers name },
          [.stopContainer name, .removeContainer name])) := by
  constructor
  · intro h
    simp [stop_container, get_docker_client, hf, hg, h]
  · intro s hs h1 h2
    simp [stop_container, get_docker_client, hf, hg, hs, h1, h2,
      removeName_setStatus]

/-- Witness for C5 at a concrete input: stopping when no container
exists returns without error or side effects. -/
theorem C5_witness :
    stop_container envOk "pygpt_container" stEmpty = (.ok (), stEmpty, []) :=
  (C5_stop_container envOk "pygpt_container" stEmpty rfl rfl).1 rfl

/-- C3: when the named container is running, create_container is a
no-op (no removal, creation or start, state unchanged), and hence a
second execute finds the identical state and neither call emits a
container creation event. -/
theorem C3_running_reuse (env : DockerEnv) (cfg : SandboxConfig)
    (st : RuntimeState) (cmd : String) (henv : noFail env)
    (himg : cfg.image_name ∈ st.images)
    (hrun : lookupC st.containers cfg.container_name = some "running") :
    create_container env cfg st cfg.container_name = (.ok (), st, []) ∧
    (execute env cfg st cmd).2.1 = st ∧
    (execute env cfg st cmd).2.2 = [.execRun cfg.container_name cmd] ∧
    ((execute env cfg st cmd).2.2 ++
        (execute env cfg (execute env cfg st cmd).2.1 cmd).2.2).filter
      Event.isCreate = [] := by
  obtain ⟨hf, hp, hig, hib, hcg, hr, hsc, hrm, hcc, hst, her⟩ := henv
  have hcr := @create_container_running env cfg st cfg.container_name
    hf hcg hr hrun
  have hex := @execute_noFail_running env cfg st cmd
    ⟨hf, hp, hig, hib, hcg, hr, hsc, hrm, hcc, hst, her⟩ hrun
  have hst1 : withImage cfg st = st := by
    simp [withImage, himg]
  refine ⟨hcr, ?_, ?_, ?_⟩
  · rw [hex, hst1]
  · rw [hex]
    simp [imageTrace, himg]
  · rw [hex, hst1]
    rw [execute_noFail_running ⟨hf, hp, hig, hib, hcg, hr, hsc, hrm, hcc,
      hst, her⟩ hrun, hst1]
    simp [imageTrace, himg, Event.isCreate]

/-- Witness for C3 at a concrete input: image present, container
running. -/
theorem C3_witness :
    create_container envOk cfg0 stRunning "pygpt_container" =
      (.ok (), stRunning, []) :=
  ((C3_running_reuse envOk cfg0 stRunning "echo hi" (by decide) (by decide)
    (by decide)).1 : _)

/-- C4: when the named container exists but its status is not running,
execute removes it, then creates a fresh container with the bind mount
of the host data dir onto /data in rw mode, a TTY, open stdin and the
idle keep-alive command, starts it, and only then runs the command; the
whole sequence follows the image phase. -/
theorem C4_stopped_recreate (env : DockerEnv) (cfg : SandboxConfig)
    (st : RuntimeState) (cmd status : String) (henv : noFail env)
    (hlk : lookupC st.containers cfg.container_name = some status)
    (hst : status ≠ "running") :
    (execute env cfg st cmd).2.2 =
      imageTrace cfg st ++
        [.removeContainer cfg.container_name,
          .createContainer cfg.container_name cfg.image_name
            cfg.host_data_dir "/data" "rw" true true "tail -f /dev/null",
          .startContainer cfg.container_name,
          .execRun cfg.container_name cmd] := by
  rw [execute_noFail_stopped henv hlk hst]
  simp [createEvent]

/-- Witness for C4 at a concrete input: image present, container
present with status exited. -/
theorem C4_witness :
    (execute envOk cfg0 stStopped "echo hi").2.2 =
      imageTrace cfg0 stStopped ++
        [.removeContainer "pygpt_container",
          .createContainer "pygpt_container" "pygpt_image"
            "/home/user/.config/pygpt-net/data" "/data" "rw" true true
            "tail -f /dev/null",
          .startContainer "pygpt_container",
          .execRun "pygpt_container" "echo hi"] :=
  C4_stopped_recreate envOk cfg0 stStopped "echo hi" "exited" (by decide)
    (by decide) (by decide)

/-- C2: on a failure-free run, when the configured image is absent the
trace of execute starts with exactly one build of that image and
contains no other build (so the build precedes the command execution),
and when the image is present no build happens at all. -/
theorem C2_image_build (env : DockerEnv) (cfg : SandboxConfig)
    (st : RuntimeState) (cmd : String) (henv : noFail env) :
    (cfg.image_name ∉ st.images →
      ∃ rest, (execute env cfg st cmd).2.2 =
        .buildImage cfg.image_name :: rest ∧
        rest.filter Event.isBuild = []) ∧
    (cfg.image_name ∈ st.images →
      ((execute env cfg st cmd).2.2).filter Event.isBuild = []) := by
  constructor
  · intro hm
    rcases hl : lookupC st.containers cfg.container_name with _ | s
    · rw [execute_noFail_absent henv hl]
      refine ⟨[createEvent cfg cfg.container_name,
        .startContainer cfg.container_name,
        .execRun cfg.container_name cmd], ?_, ?_⟩
      · simp [imageTrace, hm]
      · simp [Event.isBuild, createEvent]
    · by_cases hs : s = "running"
      · subst hs
        rw [execute_noFail_running henv hl]
        refine ⟨[.execRun cfg.container_name cmd], ?_, ?_⟩
        · simp [imageTrace, hm]
        · simp [Event.isBuild]
      · rw [execute_noFail_stopped henv hl hs]
        refine ⟨[.removeContainer cfg.container_name,
          createEvent cfg cfg.container_name,
          .startContainer cfg.container_name,
          .execRun cfg.container_name cmd], ?_, ?_⟩
        · simp [imageTrace, hm]
        · simp [Event.isBuild, createEvent]
  · intro hm
    rcases hl : lookupC st.containers cfg.container_name with _ | s
    · rw [execute_noFail_absent henv hl]
      simp [imageTrace, hm, Event.isBuild, createEvent]
    · by_cases hs : s = "running"
      · subst hs
        rw [execute_noFail_running henv hl]
        simp [imageTrace, hm, Event.isBuild]
      · rw [execute_noFail_stopped henv hl hs]
        simp [imageTrace, hm, Event.isBuild, createEvent]

/-- Witness for C2 at a concrete input: empty runtime, image absent. -/
theorem C2_witness :
    ∃ rest, (execute envOk cfg0 stEmpty "echo hi").2.2 =
      .buildImage cfg0.image_name :: rest ∧
      rest.filter Event.isBuild = [] :=
  (C2_image_build envOk cfg0 stEmpty "echo hi" (by decide)).1 (by decide)

/-- C7: when the captured combined stdout and stderr bytes of the
command are valid UTF-8, the decode then re-encode step of execute is
the identity, so execute returns exactly the captured bytes. -/
theorem C7_utf8_identity (env : DockerEnv) (cfg : SandboxConfig)
    (st : RuntimeState) (cmd : String) (cs : List Nat) (henv : noFail env)
    (hdec : utf8Decode env.execOutput = some cs) :
    (execute env cfg st cmd).1 = .ok env.execOutput := by
  have hb := utf8Encode_utf8Decode hdec
  rcases hl : lookupC st.containers cfg.container_name with _ | s
  · rw [execute_noFail_absent henv hl]
    simp [execHappy, hdec, hb]
  · by_cases hs : s = "running"
    · subst hs
      rw [execute_noFail_running henv hl]
      simp [execHappy, hdec, hb]
    · rw [execute_noFail_stopped henv hl hs]
      simp [execHappy, hdec, hb]

/-- Witness for C7 at a concrete input: the bytes of hi plus newline
come back unchanged. -/
theorem C7_witness :
    (execute envOk cfg0 stRunning "cat /data/out.txt").1 =
      .ok [104, 105, 10] :=
  C7_utf8_identity envOk cfg0 stRunning "cat /data/out.txt" [104, 105, 10]
    (by decide) (by decide)

/-- Environment of an unreachable runtime: docker.from_env raises
DockerException. -/
def envUnreachable : DockerEnv :=
  { envOk with fromEnv := some "Error while fetching server API version" }

/-- C1 counterexample: with the container runtime unreachable, execute
propagates the DockerException raised by client acquisition instead of
returning the error text as bytes, refuting the claim that execute
never raises. -/
theorem C1_counterexample :
    (execute envUnreachable cfg0 stEmpty "echo hi").1 =
      .error (.dockerError "Error while fetching server API version") := by
  rfl

/-- C1 amended: failures inside the try block of execute (container
provisioning, lookup, command execution, output decoding) are caught
and the result is ok bytes, either the re-encoded command output or the
UTF-8 bytes of str(e) of a caught exception; but failures of client
acquisition propagate, so with the runtime unreachable execute raises
the DockerException instead of returning bytes (failures of the image
check and of the build propagate likewise). -/
theorem C1_execute_error_policy (env : DockerEnv) (cfg : SandboxConfig)
    (st : RuntimeState) (cmd : String) :
    (env.fromEnv = none → env.imagesGet = none →
      (cfg.image_name ∈ st.images ∨ env.imagesBuild = none) →
      ∃ bs, (execute env cfg st cmd).1 = .ok bs ∧
        ((∃ e : PyError, bs = e.strBytes) ∨
          (∃ cs, utf8Decode env.execOutput = some cs ∧
            bs = utf8Encode cs))) ∧
    (∀ m, env.fromEnv = some m →
      (execute env cfg st cmd).1 = .error (.dockerError m)) := by
  constructor
  · intro hf hig hbuild
    by_cases hm : cfg.image_name ∈ st.images
    · simp only [execute, get_docker_client, is_image, hf, hig, hm,
        if_pos, if_true]
      repeat' split
      all_goals first
        | exact ⟨_, rfl, .inl ⟨_, rfl⟩⟩
        | exact ⟨_, rfl, .inr ⟨_, by assumption, rfl⟩⟩
    · have hib : env.imagesBuild = none := by
        rcases hbuild with h | h
        · exact absurd h hm
        · exact h
      simp only [execute, get_docker_client, is_image, build_image, hf, hig,
        hib, hm, if_neg, if_false]
      repeat' split
      all_goals first
        | exact ⟨_, rfl, .inl ⟨_, rfl⟩⟩
        | exact ⟨_, rfl, .inr ⟨_, by assumption, rfl⟩⟩
        | (exfalso; simp_all)
  · intro m hfm
    simp [execute, get_docker_client, hfm]

/-- Witness for C1 amended at a concrete input. -/
theorem C1_witness :
    ∃ bs, (execute envOk cfg0 stEmpty "echo hi").1 = .ok bs ∧
      ((∃ e : PyError, bs = e.strBytes) ∨
        (∃ cs, utf8Decode envOk.execOutput = some cs ∧
          bs = utf8Encode cs)) :=
  (C1_execute_error_policy envOk cfg0 stEmpty "echo hi").1 rfl rfl
    (.inr rfl)

/-- Environment in which containers.create raises an APIError. -/
def envCreateFails : DockerEnv :=
  { envOk with createC := some "500 Server Error: create failed" }

/-- C9 counterexample: when the container is absent, the NotFound from
the lookup selects the except NotFound handler, and an APIError raised
by containers.create inside that handler is not caught by the except
Exception clause of the same try statement, so it propagates out of
create_container, refuting the claim that every non-NotFound runtime
error during the ensuing lifecycle transitions is caught. -/
theorem C9_counterexample :
    (create_container envCreateFails cfg0 stEmpty "pygpt_container").1 =
      .error (.dockerError "500 Server Error: create failed") := by
  rfl

/-- C9 amended: non-NotFound errors raised inside the try block of
create_container are caught and logged and do not propagate: an error
of the lookup itself is swallowed, and when the container is present
every error of the subsequent reload, remove, create, or start is
swallowed too; but on the absent path, where the NotFound handler
re-creates the container, an error raised by create or start inside
that handler propagates out of create_container. -/
theorem C9_create_container_error_policy (env : DockerEnv)
    (cfg : SandboxConfig) (st : RuntimeState) (name : String) :
    (env.fromEnv = none → ∀ m, env.containersGet = some m →
      create_container env cfg st name = (.ok (), st, [])) ∧
    (env.fromEnv = none → env.containersGet = none →
      ∀ s, lookupC st.containers name = some s →
        (create_container env cfg st name).1 = .ok ()) ∧
    (env.fromEnv = none → env.containersGet = none →
      lookupC st.containers name = none → ∀ m, env.createC = some m →
        (create_container env cfg st name).1 =
          .error (.dockerError m)) ∧
    (env.fromEnv = none → env.containersGet = none →
      lookupC st.containers name = none → env.createC = none →
      ∀ m, env.startC = some m →
        (create_container env cfg st name).1 =
          .error (.dockerError m)) := by
  refine ⟨?_, ?_, ?_, ?_⟩
  · intro hf m hg
    simp [create_container, get_docker_client, hf, hg]
  · intro hf hg s hs
    simp only [create_container, get_docker_client, hf, hg, hs]
    repeat' split
    all_goals rfl
  · intro hf hg hlk m hc
    simp [create_container, get_docker_client, hf, hg, hlk, hc]
  · intro hf hg hlk hc m hstart
    simp [create_container, get_docker_client, hf, hg, hlk, hc, hstart]

/-- Environment in which containers.get raises an APIError. -/
def envLookupFails : DockerEnv :=
  { envOk with containersGet := some "500 Server Error: lookup failed" }

/-- Witness for C9 amended at a concrete input: a lookup error is
swallowed. -/
theorem C9_witness :
    create_container envLookupFails cfg0 stRunning "pygpt_container" =
      (.ok (), stRunning, []) :=
  (C9_create_container_error_policy envLookupFails cfg0 stRunning
    "pygpt_container").1 rfl "500 Server Error: lookup failed" rfl

/-! C6: the uniqueness invariant over arbitrary operation sequences. -/

/-- Public operations of the component that touch the managed
container. -/
inductive DockerOp where
  | exec (cmd : String)
  | ensureRunning
  | stop
deriving DecidableEq, Repr

/-- Runtime state after one public operation, run under its own failure
environment. -/
def applyOp (cfg : SandboxConfig) (st : RuntimeState) :
    DockerOp × DockerEnv → RuntimeState
  | (.exec cmd, env) => (execute env cfg st cmd).2.1
  | (.ensureRunning, env) =>
    (create_container env cfg st cfg.container_name).2.1
  | (.stop, env) => (stop_container env cfg.container_name st).2.1

/-- Runtime state after a sequence of public operations. -/
def runOps (cfg : SandboxConfig) (st : RuntimeState)
    (ops : List (DockerOp × DockerEnv)) : RuntimeState :=
  ops.foldl (applyOp cfg) st

theorem create_container_count (env : DockerEnv) (cfg : SandboxConfig)
    (st : RuntimeState) (name : String)
    (h : countName st.containers name ≤ 1) :
    countName (create_container env cfg st name).2.1.containers name ≤ 1 := by
  unfold create_container get_docker_client
  repeat' split
  all_goals
    simp only [countName_setStatus, countName_cons_self, countName_removeName]
  all_goals try exact h
  all_goals try omega
  all_goals
    have h0 := countName_of_lookup_none st.containers name (by assumption)
  all_goals omega

theorem stop_container_count (env : DockerEnv) (name : String)
    (st : RuntimeState) (h : countName st.containers name ≤ 1) :
    countName (stop_container env name st).2.1.containers name ≤ 1 := by
  unfold stop_container get_docker_client
  repeat' split
  all_goals
    simp only [countName_setStatus, countName_removeName]
  all_goals first | exact h | omega

theorem execute_count (env : DockerEnv) (cfg : SandboxConfig)
    (st : RuntimeState) (cmd : String)
    (h : countName st.containers cfg.container_name ≤ 1) :
    countName (execute env cfg st cmd).2.1.containers
      cfg.container_name ≤ 1 := by
  cases hf : env.fromEnv with
  | some m =>
    simp only [execute, get_docker_client, hf]
    exact h
  | none =>
    cases hig : env.imagesGet with
    | some m =>
      simp only [execute, get_docker_client, is_image, hf, hig]
      exact h
    | none =>
      by_cases hm : cfg.image_name ∈ st.images
      · simp only [execute, get_docker_client, is_image, hf, hig, hm,
          if_pos, if_true]
        rcases hcr : create_container env cfg st cfg.container_name with
          ⟨cres, st2, tr2⟩
        have h2 : countName st2.containers cfg.container_name ≤ 1 := by
          have h3 := create_container_count env cfg st cfg.container_name h
          rw [hcr] at h3
          exact h3
        cases cres <;> repeat' split
        all_goals simp_all
      · cases hib : env.imagesBuild with
        | some m =>
          simp only [execute, get_docker_client, is_image, build_image, hf,
            hig, hib, hm, if_neg, if_false]
          simp
          exact h
        | none =>
          simp only [execute, get_docker_client, is_image, build_image, hf,
            hig, hib, hm, if_neg, if_false]
          simp only [Bool.false_eq_true, if_false]
          rcases hcr : create_container env cfg
            ⟨(if cfg.image_name ∈ st.images then st.images
              else cfg.image_name :: st.images), st.containers⟩
            cfg.container_name with ⟨cres, st2, tr2⟩
          have h2 : countName st2.containers cfg.container_name ≤ 1 := by
            have h3 := create_container_count env cfg
              ⟨(if cfg.image_name ∈ st.images then st.images
                else cfg.image_name :: st.images), st.containers⟩
              cfg.container_name h
            rw [hcr] at h3
            exact h3
          cases cres <;> repeat' split
          all_goals simp_all

/-- C6: in every state reachable by any sequence of execute,
create_container and stop_container calls, under arbitrary per-call
failure environments, at most one container with the managed name
exists: every path that creates a container has removed the stale one
or observed the name absent immediately beforehand. -/
theorem C6_unique_name (cfg : SandboxConfig)
    (ops : List (DockerOp × DockerEnv)) (st : RuntimeState)
    (h : countName st.containers cfg.container_name ≤ 1) :
    countName (runOps cfg st ops).containers cfg.container_name ≤ 1 := by
  induction ops generalizing st with
  | nil => exact h
  | cons op rest ih =>
    obtain ⟨o, env⟩ := op
    cases o with
    | exec cmd =>
      exact ih ((execute env cfg st cmd).2.1) (execute_count env cfg st cmd h)
    | ensureRunning =>
      exact ih ((create_container env cfg st cfg.container_name).2.1)
        (create_container_count env cfg st cfg.container_name h)
    | stop =>
      exact ih ((stop_container env cfg.container_name st).2.1)
        (stop_container_count env cfg.container_name st h)

/-- Witness for C6 at a concrete input: provision, execute, stop. -/
theorem C6_witness :
    countName (runOps cfg0 stEmpty
      [(.ensureRunning, envOk), (.exec "echo hi", envOk),
        (.stop, envOk)]).containers cfg0.container_name ≤ 1 :=
  C6_unique_name cfg0
    [(.ensureRunning, envOk), (.exec "echo hi", envOk), (.stop, envOk)]
    stEmpty (by decide)

/-! C10: exclusivity of the computer tool. -/

theorem computer_not_mem_tools (env : ToolsEnv) (disable : DisableLists)
    (model : ModelItem) (preset : Option PresetItem) (is_expert_call : Bool)
    (ts : List RemoteTool)
    (hok : get_remote_tools env disable model preset is_expert_call = .ok ts)
    (hmem : RemoteTool.computer ∈ ts) : ts = [RemoteTool.computer] := by
  simp only [get_remote_tools] at hok
  repeat' split at hok
  all_goals try simp only [Except.ok.injEq] at hok
  all_goals try subst hok
  all_goals simp_all

/-- C10: whenever get_remote_tools takes the computer_use branch and
the model id is not in the computer-use disable list, the returned
list is exactly one ComputerTool; and in general no other remote tool
is ever returned together with a ComputerTool, whatever the flags. -/
theorem C10_computer_exclusive (env : ToolsEnv) (disable : DisableLists)
    (model : ModelItem) (preset : Option PresetItem) (is_expert_call : Bool)
    (hgpt : model.is_gpt = true)
    (hcu : (computeEnabled env model preset is_expert_call).computer_use =
      true)
    (hdis : ¬ model.id ∈ disable.computer_use) :
    get_remote_tools env disable model preset is_expert_call =
      .ok [RemoteTool.computer] ∧
    (∀ (env2 : ToolsEnv) (d2 : DisableLists) (m2 : ModelItem)
        (p2 : Option PresetItem) (e2 : Bool) (ts : List RemoteTool),
      get_remote_tools env2 d2 m2 p2 e2 = .ok ts →
      RemoteTool.computer ∈ ts → ts = [RemoteTool.computer]) := by
  constructor
  · simp [get_remote_tools, hgpt, hcu, hdis]
  · intro env2 d2 m2 p2 e2 ts hok hmem
    exact computer_not_mem_tools env2 d2 m2 p2 e2 ts hok hmem

/-- A computer-use model item. -/
def model0 : ModelItem := { id := "computer-use-preview", is_gpt := true }

/-- A configuration with every remote tool disabled in the global
config and empty disable lists. -/
def toolsEnv0 : ToolsEnv :=
  { web_search := false, image := false, code_interpreter := false,
    mcp := false, file_search := false, file_search_args := "",
    mcp_args := "", mcpJsonOk := true }

def disable0 : DisableLists :=
  { computer_use := [], web_search := [], code_interpreter := [],
    image := [], file_search := [], mcp := [] }

/-- Witness for C10 at a concrete input: a computer-use model on a
non-expert call yields exactly the computer tool. -/
theorem C10_witness :
    get_remote_tools toolsEnv0 disable0 model0 none false =
      .ok [RemoteTool.computer] :=
  (C10_computer_exclusive toolsEnv0 disable0 model0 none false rfl
    (by decide) (by decide)).1

end PyGpt
